import Mathlib

/-!
Verification of the e-commerce backend's analytics and coupon/review
controllers: a shallow embedding of the coupon handlers, the dashboard/pie
chart assemblers (src/controllers/stats.ts), the review write-back flow
(products controller), and the analytics utilities (`calculatePercentage`,
`getInventories`, `getChartData`, `findAverageRatings`) that the controllers
pull in from utils/features; the utilities themselves are modelled from the
specification since their source file is not part of the sources.

Numbers are embedded as rationals; JavaScript `Math.round` is Mathlib's
`round` (round half away from zero agrees with round half up on the values
arising here, both being `⌊x + 1/2⌋` for nonnegative halves).
-/

namespace Ecom

/-- HTTP-style response: `ok` carries a success payload message, `err` is the
`ErrorHandler` path that the centralized responder renders as
`\x7bsuccess:false, message\x7d` with the given status. -/
inductive Resp where
  | ok (status : Nat) (message : String)
  | err (status : Nat) (message : String)
deriving DecidableEq

/-- The HTTP status of a response. -/
def Resp.status : Resp → Nat
  | .ok s _ => s
  | .err s _ => s

/-- Whether a response took the error path (rendered `success:false`). -/
def Resp.isErr : Resp → Bool
  | .ok _ _ => false
  | .err _ _ => true

/-- Coupon record (`models/coupon`): a code with a fixed amount, plus its
document id. -/
structure CouponR where
  id : Nat
  code : String
  amount : ℚ
deriving DecidableEq

/-- `deleteCoupon` (stats.ts lines 498-509): `Coupon.findByIdAndDelete(id)`;
when no coupon matches, `ErrorHandler("Invalid Coupon ID", 400)`; otherwise a
200 success naming the deleted coupon's code, with the coupon removed. -/
def deleteCoupon (coupons : List CouponR) (cid : Nat) : Resp × List CouponR :=
  match coupons.find? (fun c => c.id == cid) with
  | none => (.err 400 "Invalid Coupon ID", coupons)
  | some c =>
      (.ok 200 ("Coupon " ++ c.code ++ " Deleted Successfully"),
       coupons.filter (fun x => !(x.id == cid)))

/-- JS truthiness of an optional string field from the request body: absent
and the empty string are falsy. -/
def truthyStr : Option String → Bool
  | none => false
  | some s => !(s == "")

/-- JS truthiness of an optional numeric field from the request body: absent
and zero are falsy. -/
def truthyNum : Option ℚ → Bool
  | none => false
  | some a => !(a == 0)

/-- `updateCoupon` (stats.ts lines 478-496): `Coupon.findById(id)`; 400 when
missing; `if (code) coupon.code = code; if (amount) coupon.amount = amount;`
then save. A field is overwritten only when the supplied value is truthy. -/
def updateCoupon (coupons : List CouponR) (cid : Nat)
    (code : Option String) (amount : Option ℚ) : Resp × List CouponR :=
  match coupons.find? (fun c => c.id == cid) with
  | none => (.err 400 "Invalid Coupon ID", coupons)
  | some c =>
      let c' : CouponR :=
        { c with
          code := if truthyStr code then code.getD c.code else c.code,
          amount := if truthyNum amount then amount.getD c.amount else c.amount }
      (.ok 200 ("Coupon " ++ c'.code ++ " Updated Successfully"),
       coupons.map (fun x => if x.id == cid then c' else x))

/-- Modelled from the spec: `calculatePercentage` (utils/features, file absent
from the sources; §4.1 Percentage-Change Calculator). A zero baseline yields
`current * 100`; otherwise `((current - previous) / previous) * 100` rounded
to a whole percent (the spec leaves floor vs round open; `round` is used,
matching `Math.round`). -/
def calculatePercentage (current previous : ℚ) : ℚ :=
  if previous = 0 then current * 100
  else ((round (((current - previous) / previous) * 100) : ℤ) : ℚ)

/-- Modelled from the spec: `getInventories` (utils/features, file absent from
the sources; §4.2 Inventory Category Counter). The external per-category count
query is the function argument `countOf`; each category maps to
`round(count / total * 100)`, and to 0 when the total is 0 so that no division
by zero occurs. Category order is preserved. -/
def getInventories (countOf : String → Nat) (categories : List String)
    (productsCount : Nat) : List (String × ℤ) :=
  categories.map (fun cat =>
    (cat, if productsCount = 0 then 0
          else round (((countOf cat : ℚ) / (productsCount : ℚ)) * 100)))

/-- Timestamped record for bucketing: the creation instant's year and month,
plus the record's numeric properties (`none` for an absent property). -/
structure TRecord where
  year : Int
  month : Int
  props : String → Option ℚ

/-- Modelled from the spec: the per-record contribution of the series builder
(§4.3): count mode (no property) adds 1; sum mode adds the record's value at
the property, an absent value counting as 0. -/
def contributionOf (property : Option String) (r : TRecord) : ℚ :=
  match property with
  | none => 1
  | some p => (r.props p).getD 0

/-- Modelled from the spec: one accumulation step of the series builder
(§4.3): `monthsAgo = (refYear - recYear)*12 + (refMonth - recMonth)`; when
`0 ≤ monthsAgo < n` the record contributes to bucket `n - 1 - monthsAgo`,
otherwise it is ignored. -/
def chartStep (n : Nat) (refYear refMonth : Int) (property : Option String)
    (buckets : List ℚ) (r : TRecord) : List ℚ :=
  let monthsAgo : Int := (refYear - r.year) * 12 + (refMonth - r.month)
  if 0 ≤ monthsAgo ∧ monthsAgo < (n : Int) then
    let idx := n - 1 - monthsAgo.toNat
    buckets.set idx (buckets.getD idx 0 + contributionOf property r)
  else buckets

/-- Modelled from the spec: `getChartData` (utils/features, file absent from
the sources; §4.3 Time-Bucketed Series Builder). Starting from `n` zero
buckets, oldest first, each record is folded in with `chartStep`. -/
def getChartData (docArr : List TRecord) (n : Nat) (refYear refMonth : Int)
    (property : Option String) : List ℚ :=
  docArr.foldl (chartStep n refYear refMonth property) (List.replicate n 0)

/-- Review record (`models/review`): rating, comment, owning product id,
author id. -/
structure ReviewR where
  rating : ℚ
  comment : String
  product : Nat
  user : Nat
deriving DecidableEq

/-- Product record, restricted to the fields the rating write-back touches
(`models/product`): document id, `ratings`, `numOfReviews`. -/
structure ProductR where
  id : Nat
  ratings : ℚ
  numOfReviews : Nat
deriving DecidableEq

/-- Store state for the review flow: the product and review collections. -/
structure Store where
  products : List ProductR
  reviews : List ReviewR
deriving DecidableEq

/-- Modelled from the spec: `findAverageRatings` (utils/features, file absent
from the sources; §4.4 Rating Aggregator). Over the product's reviews, the
average is the arithmetic mean of the rating fields rounded to 1 decimal
place, 0 when there are no reviews; the count of reviews is returned
alongside. -/
def findAverageRatings (reviews : List ReviewR) (productId : Nat) : ℚ × Nat :=
  let rs := reviews.filter (fun rv => rv.product == productId)
  let avg : ℚ :=
    if rs.length = 0 then 0
    else ((round (((rs.map (fun rv => rv.rating)).sum / (rs.length : ℚ)) * 10) : ℤ) : ℚ) / 10
  (avg, rs.length)

/-- `Product.findById` on the store. -/
def lookupProduct (st : Store) (productId : Nat) : Option ProductR :=
  st.products.find? (fun p => p.id == productId)

/-- `newReview` (products controller, lines 198-229): `Review.create` the new
review, recompute the product's aggregate with `findAverageRatings`, and write
`ratings` and `numOfReviews` back onto the product via `findByIdAndUpdate`. -/
def newReview (st : Store) (productId userId : Nat) (rating : ℚ)
    (comment : String) : Store :=
  let st1 : Store :=
    { st with reviews := st.reviews ++ [⟨rating, comment, productId, userId⟩] }
  let res := findAverageRatings st1.reviews productId
  { st1 with
    products := st1.products.map (fun p =>
      if p.id == productId then
        { p with ratings := res.1, numOfReviews := res.2 }
      else p) }

/-- Order record with the fields `getPieCharts` selects (`total`, `discount`,
`subtotal`, `tax`, `shippingCharges`); each is optional in the document and
the reductions default it with `|| 0`. -/
structure OrderR where
  total : Option ℚ
  discount : Option ℚ
  subtotal : Option ℚ
  tax : Option ℚ
  shippingCharges : Option ℚ
deriving DecidableEq

/-- stats.ts lines 198-201: `allOrders.reduce((prev, order) => prev +
(order.total || 0), 0)`; also the shape of the this/last month revenue
reductions at lines 93-101. -/
def grossIncome (allOrders : List OrderR) : ℚ :=
  allOrders.foldl (fun prev o => prev + o.total.getD 0) 0

/-- stats.ts lines 203-206: sum of `order.discount || 0`. -/
def discountTotal (allOrders : List OrderR) : ℚ :=
  allOrders.foldl (fun prev o => prev + o.discount.getD 0) 0

/-- stats.ts lines 208-211: sum of `order.subtotal || 0`, times `0.3`. -/
def productionCost (allOrders : List OrderR) : ℚ :=
  (allOrders.foldl (fun prev o => prev + o.subtotal.getD 0) 0) * (3 / 10)

/-- stats.ts lines 213-216: sum of `(order.tax || 0) + (order.shippingCharges
|| 0)`. -/
def burnt (allOrders : List OrderR) : ℚ :=
  allOrders.foldl (fun prev o => prev + o.tax.getD 0 + o.shippingCharges.getD 0) 0

/-- stats.ts line 218: `Math.round(grossIncome * (30 / 100))`. -/
def marketingCost (allOrders : List OrderR) : ℚ :=
  ((round (grossIncome allOrders * (30 / 100)) : ℤ) : ℚ)

/-- stats.ts line 219: `grossIncome - discount - productionCost - burnt -
marketingCost`. -/
def netMargin (allOrders : List OrderR) : ℚ :=
  grossIncome allOrders - discountTotal allOrders - productionCost allOrders -
    burnt allOrders - marketingCost allOrders

/-- The `stats` payload assembled by `getDashboardStats` (stats.ts lines
108-143), flattened; `latestTransaction` is omitted as no claim concerns it.
The chart section (lines 128-131) is the pair `chartOrder` / `chartRevenue`,
and the type of the six-month order documents is a parameter since they are
passed through untouched. -/
structure Stats (α : Type) where
  categoryCount : List (String × ℤ)
  changePercentRevenue : ℚ
  changePercentProduct : ℚ
  changePercentUser : ℚ
  changePercentOrder : ℚ
  countRevenue : ℚ
  countProduct : Nat
  countUser : Nat
  countOrder : Nat
  chartOrder : List α
  chartRevenue : List α
  maleUsers : ℤ
  femaleUsers : Nat

/-- `getDashboardStats` assembly (stats.ts lines 93-143) over the
already-awaited query results: this/last month revenue reduces the order
totals, the percentage changes feed `calculatePercentage`, `categoryCount`
comes from `getInventories`, and `chart.order` and `chart.revenue` are both
assigned the raw `lastSixMonthOrders` query result. -/
def getDashboardStats {α : Type}
    (thisMonthProducts lastMonthProducts thisMonthUsers lastMonthUsers : Nat)
    (thisMonthOrders lastMonthOrders : List OrderR)
    (productsCount usersCount allOrdersCount : Nat)
    (lastSixMonthOrders : List α)
    (countOf : String → Nat) (categories : List String)
    (femaleUsersCount : Nat) : Stats α :=
  let thisMonthRevenue := grossIncome thisMonthOrders
  let lastMonthRevenue := grossIncome lastMonthOrders
  { categoryCount := getInventories countOf categories productsCount
    changePercentRevenue := calculatePercentage thisMonthRevenue lastMonthRevenue
    changePercentProduct :=
      calculatePercentage (thisMonthProducts : ℚ) (lastMonthProducts : ℚ)
    changePercentUser :=
      calculatePercentage (thisMonthUsers : ℚ) (lastMonthUsers : ℚ)
    changePercentOrder :=
      calculatePercentage (thisMonthOrders.length : ℚ) (lastMonthOrders.length : ℚ)
    countRevenue := thisMonthRevenue
    countProduct := productsCount
    countUser := usersCount
    countOrder := allOrdersCount
    chartOrder := lastSixMonthOrders
    chartRevenue := lastSixMonthOrders
    maleUsers := (usersCount : ℤ) - (femaleUsersCount : ℤ)
    femaleUsers := femaleUsersCount }

/-- Evaluation rule for `round` at a concrete rational, via
`round x = ⌊x + 1/2⌋` and the floor characterization. -/
lemma round_eq_of {x : ℚ} {z : ℤ} (h1 : (z : ℚ) ≤ x + 1 / 2)
    (h2 : x + 1 / 2 < z + 1) : round x = z := by
  rw [round_eq]
  exact Int.floor_eq_iff.mpr ⟨h1, h2⟩

/-- `round` is monotone, from the floor characterization. -/
lemma round_le_round_of_le {x y : ℚ} (h : x ≤ y) : round x ≤ round y := by
  rw [round_eq, round_eq]
  exact Int.floor_le_floor (by linarith)

/-- `find?` commutes with mapping a function that does not change the truth of
the search predicate on any element. -/
lemma find?_map_of_pred_invariant {α : Type} (q : α → Bool) (f : α → α)
    (hf : ∀ x, q (f x) = q x) :
    ∀ l : List α, (l.map f).find? q = (l.find? q).map f := by
  intro l
  induction l with
  | nil => rfl
  | cons a l ih =>
      simp only [List.map_cons, List.find?_cons]
      rw [hf a]
      cases h : q a <;> simp [ih]

/-- Left fold of pointwise addition accumulates the sum of the mapped list. -/
lemma foldl_add_eq_sum {α : Type} (g : α → ℚ) :
    ∀ (l : List α) (init : ℚ),
      l.foldl (fun p x => p + g x) init = init + (l.map g).sum := by
  intro l
  induction l with
  | nil => intro init; simp
  | cons a l ih => intro init; simp [ih, add_assoc]

/-- A `chartStep` never changes the number of buckets. -/
lemma chartStep_length (n : Nat) (y m : Int) (property : Option String)
    (buckets : List ℚ) (r : TRecord) :
    (chartStep n y m property buckets r).length = buckets.length := by
  simp only [chartStep]
  split
  · exact List.length_set buckets _ _
  · rfl

/-- Folding `chartStep` over any record list preserves the bucket count. -/
lemma foldl_chartStep_length (n : Nat) (y m : Int) (property : Option String) :
    ∀ (docArr : List TRecord) (acc : List ℚ),
      (docArr.foldl (chartStep n y m property) acc).length = acc.length := by
  intro docArr
  induction docArr with
  | nil => intro acc; rfl
  | cons r rs ih =>
      intro acc
      rw [List.foldl_cons, ih, chartStep_length]

/-- When a record's value at the property is 1, the sum-mode step and the
count-mode step agree. -/
lemma chartStep_count_eq_sum (n : Nat) (y m : Int) (p : String) (r : TRecord)
    (acc : List ℚ) (h : r.props p = some 1) :
    chartStep n y m none acc r = chartStep n y m (some p) acc r := by
  simp [chartStep, contributionOf, h]

/-- Count-mode and sum-mode folds agree from any accumulator when every
record's value at the property is 1. -/
lemma foldl_chartStep_count_eq_sum (n : Nat) (y m : Int) (p : String) :
    ∀ (docArr : List TRecord) (acc : List ℚ),
      (∀ r ∈ docArr, r.props p = some 1) →
      docArr.foldl (chartStep n y m none) acc =
        docArr.foldl (chartStep n y m (some p)) acc := by
  intro docArr
  induction docArr with
  | nil => intro acc _; rfl
  | cons r rs ih =>
      intro acc h
      rw [List.foldl_cons, List.foldl_cons,
        chartStep_count_eq_sum n y m p r acc (h r (by simp)),
        ih _ (fun x hx => h x (by simp [hx]))]

/-- C1 counterexample: deleting a coupon whose id matches nothing does answer
with `success:false` and an unchanged store, but the HTTP status is 400, not
the 404 the claim states. Concrete input: a store holding the single coupon
id 1 and a delete request for id 2. -/
theorem deleteCoupon_notFound_cex :
    (deleteCoupon [⟨1, "SAVE10", 10⟩] 2).1.status = 400 ∧
    ¬(deleteCoupon [⟨1, "SAVE10", 10⟩] 2).1.status = 404 ∧
    (deleteCoupon [⟨1, "SAVE10", 10⟩] 2).1.isErr = true ∧
    (deleteCoupon [⟨1, "SAVE10", 10⟩] 2).2 = [⟨1, "SAVE10", 10⟩] := by
  refine ⟨rfl, by decide, rfl, rfl⟩

/-- C1 (amended): for every store state, calling `deleteCoupon` with an id
that matches no coupon returns an error response (HTTP 400, rendered
`success:false` with message "Invalid Coupon ID") and leaves the coupon
collection unchanged. -/
theorem deleteCoupon_notFound (coupons : List CouponR) (cid : Nat)
    (h : coupons.find? (fun c => c.id == cid) = none) :
    deleteCoupon coupons cid = (Resp.err 400 "Invalid Coupon ID", coupons) := by
  simp [deleteCoupon, h]

/-- Witness for `deleteCoupon_notFound` at the one-coupon store and id 2. -/
theorem deleteCoupon_notFound_witness :
    ([⟨1, "SAVE10", 10⟩] : List CouponR).find? (fun c => c.id == 2) = none ∧
    deleteCoupon [⟨1, "SAVE10", 10⟩] 2 =
      (Resp.err 400 "Invalid Coupon ID", [⟨1, "SAVE10", 10⟩]) :=
  ⟨rfl, deleteCoupon_notFound [⟨1, "SAVE10", 10⟩] 2 rfl⟩

/-- C2: with a zero baseline the percentage change is `current * 100`, and in
particular it is 0 when the current value is also 0. -/
theorem calculatePercentage_zero_baseline (c : ℚ) :
    calculatePercentage c 0 = c * 100 ∧ calculatePercentage 0 0 = 0 := by
  constructor <;> simp [calculatePercentage]

/-- C3 counterexample: the sign of the rounded percentage change does not
always equal the sign of `current - previous`. At `(1001, 1000)` the change
rounds to 0 although `current - previous > 0`; at `(0, -1)` the negative
baseline flips the sign: the result is -100 although `current - previous >
0`. -/
theorem calculatePercentage_sign_cex :
    calculatePercentage 1001 1000 = 0 ∧ (0 : ℚ) < 1001 - 1000 ∧
    calculatePercentage 0 (-1) = -100 ∧ (0 : ℚ) < 0 - (-1) := by
  have h1 : round (((1001 - 1000 : ℚ) / 1000) * 100) = 0 :=
    round_eq_of (by norm_num) (by norm_num)
  have h2 : round ((-100 : ℚ)) = -100 :=
    round_eq_of (by norm_num) (by norm_num)
  refine ⟨by norm_num [calculatePercentage, h1], by norm_num,
    by norm_num [calculatePercentage, h2], by norm_num⟩

/-- C3 (amended): for a positive baseline `p`, `calculatePercentage p p = 0`,
and the result never has the sign opposite to `c - p`: it is nonnegative when
`c ≥ p` and nonpositive when `c ≤ p` (rounding may collapse small relative
changes to 0, and a negative baseline may flip the sign, so exact sign
equality for every nonzero baseline fails). -/
theorem calculatePercentage_sign (c p : ℚ) (hp : 0 < p) :
    calculatePercentage p p = 0 ∧
    (p ≤ c → 0 ≤ calculatePercentage c p) ∧
    (c ≤ p → calculatePercentage c p ≤ 0) := by
  have hne : p ≠ 0 := ne_of_gt hp
  refine ⟨by simp [calculatePercentage, hne], ?_, ?_⟩
  · intro hpc
    simp only [calculatePercentage, if_neg hne]
    have hx : (0 : ℚ) ≤ ((c - p) / p) * 100 :=
      mul_nonneg (div_nonneg (by linarith) hp.le) (by norm_num)
    have h0 : round (0 : ℚ) ≤ round (((c - p) / p) * 100) :=
      round_le_round_of_le hx
    rw [round_zero] at h0
    exact_mod_cast h0
  · intro hcp
    simp only [calculatePercentage, if_neg hne]
    have hx : ((c - p) / p) * 100 ≤ (0 : ℚ) :=
      mul_nonpos_of_nonpos_of_nonneg (div_nonpos_of_nonpos_of_nonneg (by linarith) hp.le)
        (by norm_num)
    have h0 : round (((c - p) / p) * 100) ≤ round (0 : ℚ) :=
      round_le_round_of_le hx
    rw [round_zero] at h0
    exact_mod_cast h0

/-- Witness for `calculatePercentage_sign` at `c = 2`, `p = 1`. -/
theorem calculatePercentage_sign_witness :
    (0 : ℚ) < 1 ∧
    (calculatePercentage 1 1 = 0 ∧
     ((1 : ℚ) ≤ 2 → 0 ≤ calculatePercentage 2 1) ∧
     ((2 : ℚ) ≤ 1 → calculatePercentage 2 1 ≤ 0)) :=
  ⟨by norm_num, calculatePercentage_sign 2 1 (by norm_num)⟩

/-- C4: the series builder returns exactly `n` buckets for every record list,
window length, and reference month, and on the empty input every bucket is
0. -/
theorem getChartData_length_and_empty (docArr : List TRecord) (n : Nat)
    (refYear refMonth : Int) (property : Option String) :
    (getChartData docArr n refYear refMonth property).length = n ∧
    getChartData [] n refYear refMonth property = List.replicate n 0 := by
  constructor
  · rw [getChartData, foldl_chartStep_length, List.length_replicate]
  · rfl

/-- C5: count mode produces the same series as sum mode whenever every
record's value at the chosen property equals 1. -/
theorem getChartData_count_eq_sum (docArr : List TRecord) (n : Nat)
    (refYear refMonth : Int) (p : String)
    (h : ∀ r ∈ docArr, r.props p = some 1) :
    getChartData docArr n refYear refMonth none =
      getChartData docArr n refYear refMonth (some p) := by
  rw [getChartData, getChartData]
  exact foldl_chartStep_count_eq_sum n refYear refMonth p docArr _ h

/-- Witness for `getChartData_count_eq_sum`: one record whose every property
is 1, a 2-month window. -/
theorem getChartData_count_eq_sum_witness :
    (∀ r ∈ [({ year := 2024, month := 5, props := fun _ => some 1 } : TRecord)],
      r.props "total" = some 1) ∧
    getChartData [⟨2024, 5, fun _ => some 1⟩] 2 2024 5 none =
      getChartData [⟨2024, 5, fun _ => some 1⟩] 2 2024 5 (some "total") :=
  ⟨by intro r hr; simp only [List.mem_singleton] at hr; subst hr; rfl,
   getChartData_count_eq_sum [⟨2024, 5, fun _ => some 1⟩] 2 2024 5 "total"
     (by intro r hr; simp only [List.mem_singleton] at hr; subst hr; rfl)⟩

/-- C7: the pie-chart revenue distribution — gross income is the sum of the
order totals, discount the sum of the discounts, production cost is 0.3 times
the sum of the subtotals, burnt the sum of tax plus shipping charges,
marketing cost is `round(grossIncome * 0.30)`, and the net margin is gross
income minus discount, production cost, burnt and marketing cost. -/
theorem revenueDistribution_eq (orders : List OrderR) :
    grossIncome orders = (orders.map (fun o => o.total.getD 0)).sum ∧
    discountTotal orders = (orders.map (fun o => o.discount.getD 0)).sum ∧
    productionCost orders = (3 / 10) * (orders.map (fun o => o.subtotal.getD 0)).sum ∧
    burnt orders = (orders.map (fun o => o.tax.getD 0 + o.shippingCharges.getD 0)).sum ∧
    marketingCost orders = ((round (grossIncome orders * (30 / 100)) : ℤ) : ℚ) ∧
    netMargin orders = grossIncome orders - discountTotal orders -
      productionCost orders - burnt orders - marketingCost orders := by
  refine ⟨?_, ?_, ?_, ?_, rfl, rfl⟩
  · simpa using foldl_add_eq_sum (fun o => o.total.getD 0) orders 0
  · simpa using foldl_add_eq_sum (fun o => o.discount.getD 0) orders 0
  · have h := foldl_add_eq_sum (fun o => o.subtotal.getD 0) orders 0
    simp only [productionCost, h]
    ring
  · have h : orders.foldl (fun p o => p + o.tax.getD 0 + o.shippingCharges.getD 0) 0 =
        orders.foldl (fun p o => p + (o.tax.getD 0 + o.shippingCharges.getD 0)) 0 := by
      simp only [add_assoc]
    simp only [burnt, h]
    simpa using foldl_add_eq_sum (fun o => o.tax.getD 0 + o.shippingCharges.getD 0) orders 0

/-- C8: with a total product count of 0 every category percentage is 0 (the
division is guarded, the function is total), and with per-category counts 2
and 2 out of a total of 4 both categories map to 50. -/
theorem getInventories_guard (countOf : String → Nat) (categories : List String) :
    getInventories countOf categories 0 = categories.map (fun cat => (cat, (0 : ℤ))) ∧
    getInventories (fun _ => 2) ["a", "b"] 4 = [("a", 50), ("b", 50)] := by
  constructor
  · simp [getInventories]
  · have h : round ((((2 : Nat) : ℚ) / ((4 : Nat) : ℚ)) * 100) = 50 :=
      round_eq_of (by norm_num) (by norm_num)
    norm_num [getInventories, h]

/-- C9: in the dashboard stats payload, `chart.order` and `chart.revenue` are
the same list, and both are exactly the raw six-month order query result (no
bucketing, counting, or summing is applied to either). -/
theorem getDashboardStats_chart_raw {α : Type}
    (thisMonthProducts lastMonthProducts thisMonthUsers lastMonthUsers : Nat)
    (thisMonthOrders lastMonthOrders : List OrderR)
    (productsCount usersCount allOrdersCount : Nat)
    (lastSixMonthOrders : List α)
    (countOf : String → Nat) (categories : List String)
    (femaleUsersCount : Nat) :
    (getDashboardStats thisMonthProducts lastMonthProducts thisMonthUsers
        lastMonthUsers thisMonthOrders lastMonthOrders productsCount usersCount
        allOrdersCount lastSixMonthOrders countOf categories
        femaleUsersCount).chartOrder =
      (getDashboardStats thisMonthProducts lastMonthProducts thisMonthUsers
        lastMonthUsers thisMonthOrders lastMonthOrders productsCount usersCount
        allOrdersCount lastSixMonthOrders countOf categories
        femaleUsersCount).chartRevenue ∧
    (getDashboardStats thisMonthProducts lastMonthProducts thisMonthUsers
        lastMonthUsers thisMonthOrders lastMonthOrders productsCount usersCount
        allOrdersCount lastSixMonthOrders countOf categories
        femaleUsersCount).chartOrder = lastSixMonthOrders :=
  ⟨rfl, rfl⟩

/-- The rating aggregate of a product whose review set is exactly one review
of rating 5 is average 5 with count 1. -/
lemma findAverageRatings_singleton (reviews : List ReviewR) (productId : Nat)
    (rv : ReviewR) (hf : reviews.filter (fun x => x.product == productId) = [rv])
    (hr : rv.rating = 5) :
    findAverageRatings reviews productId = (5, 1) := by
  have h50 : round ((5 : ℚ) / 1 * 10) = 50 := round_eq_of (by norm_num) (by norm_num)
  simp only [findAverageRatings, hf]
  norm_num [hr, h50]

/-- C6: when the product exists, `newReview` writes back onto it exactly the
rating aggregate of its post-insert review set — the arithmetic mean of the
review ratings rounded to 1 decimal place (0 with no reviews) together with
the review count — and in particular, with no prior reviews and rating 5 the
stored `ratings` is 5 and `numOfReviews` is 1. -/
theorem newReview_writeback (st : Store) (productId userId : Nat) (rating : ℚ)
    (comment : String) (pr : ProductR)
    (hfind : lookupProduct st productId = some pr) :
    ∃ pr',
      lookupProduct (newReview st productId userId rating comment) productId = some pr' ∧
      pr'.ratings =
        (findAverageRatings (st.reviews ++ [⟨rating, comment, productId, userId⟩]) productId).1 ∧
      pr'.numOfReviews =
        (findAverageRatings (st.reviews ++ [⟨rating, comment, productId, userId⟩]) productId).2 ∧
      (st.reviews.filter (fun rv => rv.product == productId) = [] → rating = 5 →
        pr'.ratings = 5 ∧ pr'.numOfReviews = 1) := by
  have hfind' : st.products.find? (fun p => p.id == productId) = some pr := hfind
  have hq : (pr.id == productId) = true := by simpa using List.find?_some hfind'
  refine ⟨{ pr with
      ratings := (findAverageRatings (st.reviews ++ [⟨rating, comment, productId, userId⟩]) productId).1,
      numOfReviews := (findAverageRatings (st.reviews ++ [⟨rating, comment, productId, userId⟩]) productId).2 },
    ?_, rfl, rfl, ?_⟩
  · unfold lookupProduct at hfind ⊢
    simp only [newReview]
    rw [find?_map_of_pred_invariant _ _ ?hf st.products, hfind]
    · simp only [Option.map_some']
      rw [if_pos hq]
    case hf =>
      intro x
      by_cases hx : (x.id == productId) = true
      · simp [hx]
      · simp [hx]
  · intro hnone h5
    subst h5
    have hf : (st.reviews ++ [(⟨5, comment, productId, userId⟩ : ReviewR)]).filter
        (fun x => x.product == productId) = [⟨5, comment, productId, userId⟩] := by
      simp [List.filter_append, hnone]
    rw [findAverageRatings_singleton _ _ _ hf rfl]
    exact ⟨rfl, rfl⟩

/-- Witness for `newReview_writeback`: a store with one product (id 1, no
reviews), a new review of rating 5 by user 7. -/
theorem newReview_writeback_witness :
    lookupProduct ⟨[⟨1, 0, 0⟩], []⟩ 1 = some ⟨1, 0, 0⟩ ∧
    (∃ pr',
      lookupProduct (newReview ⟨[⟨1, 0, 0⟩], []⟩ 1 7 5 "ok") 1 = some pr' ∧
      pr'.ratings =
        (findAverageRatings ((⟨[⟨1, 0, 0⟩], []⟩ : Store).reviews ++ [⟨5, "ok", 1, 7⟩]) 1).1 ∧
      pr'.numOfReviews =
        (findAverageRatings ((⟨[⟨1, 0, 0⟩], []⟩ : Store).reviews ++ [⟨5, "ok", 1, 7⟩]) 1).2 ∧
      ((⟨[⟨1, 0, 0⟩], []⟩ : Store).reviews.filter (fun rv => rv.product == 1) = [] →
        (5 : ℚ) = 5 → pr'.ratings = 5 ∧ pr'.numOfReviews = 1)) :=
  ⟨rfl, newReview_writeback ⟨[⟨1, 0, 0⟩], []⟩ 1 7 5 "ok" ⟨1, 0, 0⟩ rfl⟩

/-- C10: updating an existing coupon overwrites each field only when the
supplied value is truthy: an amount of 0 leaves `amount` unchanged, and an
absent or empty code leaves `code` unchanged. -/
theorem updateCoupon_truthy_frame (coupons : List CouponR) (cid : Nat)
    (code : Option String) (amount : Option ℚ) (c : CouponR)
    (hfind : coupons.find? (fun x => x.id == cid) = some c) :
    ∃ c',
      (updateCoupon coupons cid code amount).2.find? (fun x => x.id == cid) = some c' ∧
      c'.code = (if truthyStr code then code.getD c.code else c.code) ∧
      c'.amount = (if truthyNum amount then amount.getD c.amount else c.amount) ∧
      (amount = some 0 → c'.amount = c.amount) ∧
      ((code = none ∨ code = some "") → c'.code = c.code) := by
  have hq : (c.id == cid) = true := by simpa using List.find?_some hfind
  refine ⟨{ c with
      code := if truthyStr code then code.getD c.code else c.code,
      amount := if truthyNum amount then amount.getD c.amount else c.amount },
    ?_, rfl, rfl, ?_, ?_⟩
  · simp only [updateCoupon, hfind]
    rw [find?_map_of_pred_invariant _ _ ?hf coupons, hfind]
    · simp only [Option.map_some']
      rw [if_pos hq]
    case hf =>
      intro x
      by_cases hx : (x.id == cid) = true
      · simp [hx, hq]
      · simp [hx]
  · rintro rfl
    simp [truthyNum]
  · rintro (rfl | rfl) <;> simp [truthyStr]

/-- Witness for `updateCoupon_truthy_frame`: one coupon (id 1, code "X",
amount 5), updated with empty code and zero amount. -/
theorem updateCoupon_truthy_frame_witness :
    ([⟨1, "X", 5⟩] : List CouponR).find? (fun x => x.id == 1) = some ⟨1, "X", 5⟩ ∧
    (∃ c',
      (updateCoupon [⟨1, "X", 5⟩] 1 (some "") (some 0)).2.find? (fun x => x.id == 1) = some c' ∧
      c'.code = (if truthyStr (some "") then (some "").getD "X" else "X") ∧
      c'.amount = (if truthyNum (some 0) then (some 0).getD 5 else 5) ∧
      (some (0 : ℚ) = some 0 → c'.amount = 5) ∧
      ((some "" = none ∨ some "" = some "") → c'.code = "X")) :=
  ⟨rfl, updateCoupon_truthy_frame [⟨1, "X", 5⟩] 1 (some "") (some 0) ⟨1, "X", 5⟩ rfl⟩

end Ecom
